import Mathlib

/-!
Shallow embedding of `src/DolDoc/DolDoc.py` (TempleOS-Python DolDoc decoder).

Bytes are modelled as `Nat` values, streams as a list of bytes with a cursor
(`io.BytesIO`).  Python exceptions become values of `DecodeError`; the one
non-terminating loop in the source (the NUL scan of
`DolDocElementText.fromStream`, which keeps reading `b""` at end of input)
is marked by the dedicated `DecodeError.nonTermination` value.  The `print`
call inside `DolDocEntry.fromStream` is ignored: it does not affect the
decoded result.
-/

namespace DolDocPy

/-- A byte stream with a cursor, modelling `io.BytesIO`: `read n` returns up
to `n` bytes and advances the cursor by the number of bytes actually read. -/
structure ByteStream where
  data : List Nat
  pos : Nat
deriving Repr, DecidableEq

/-- Model of `stream.read(n)` for `n ≥ 0`: up to `n` bytes, cursor advanced by
the number of bytes actually returned. -/
def ByteStream.readBytes (s : ByteStream) (n : Nat) : List Nat × ByteStream :=
  let bs := (s.data.drop s.pos).take n
  (bs, { s with pos := s.pos + bs.length })

/-- Model of `stream.read(n)` for negative `n`: `BytesIO.read` with a negative
argument reads to the end of the stream. -/
def ByteStream.readAll (s : ByteStream) : List Nat × ByteStream :=
  let bs := s.data.drop s.pos
  (bs, { s with pos := s.pos + bs.length })

/-- Number of bytes between the cursor and the end of the stream. -/
def ByteStream.remaining (s : ByteStream) : Nat := s.data.length - s.pos

/-- Failure outcomes of a decode.  Each constructor records which Python
exception it stands for. -/
inductive DecodeError where
  /-- Python `struct.error` (or tuple-unpacking `ValueError`) raised when a
  read returned fewer bytes than the struct format needs; `offset` is the
  cursor position at which the failing read started. -/
  | unexpectedEof (offset : Nat)
  /-- Python `DolDocError("Don't know what type {} at {} is!")`. -/
  | unknownOpcode (opcode offset : Nat)
  /-- Python `DolDocError("Don't know how to decode {} at {}!")`. -/
  | unimplementedDecoder (cls : String) (offset : Nat)
  /-- Python `DolDocError("EOF reached before End marker!")`. -/
  | eofBeforeEnd
  /-- Python uncaught `IndexError` from `DolDocMapping[etype]`. -/
  | indexError
  /-- Marks a Python infinite loop (see `readTextBytes`). -/
  | nonTermination
  /-- Artifact of the fuelled loops; never reached from the wrappers, which
  pass more fuel than the number of remaining bytes. -/
  | fuelExhausted
deriving Repr, DecidableEq

/-- Model of `struct.unpack`: exactly `n` bytes or `struct.error`. -/
def readExact (s : ByteStream) (n : Nat) :
    Except DecodeError (List Nat × ByteStream) :=
  let r := s.readBytes n
  if r.1.length = n then .ok r else .error (.unexpectedEof s.pos)

/-- Little-endian value of a byte list. -/
def leNat (bs : List Nat) : Nat :=
  bs.foldr (fun b acc => b % 256 + 256 * acc) 0

/-- Little-endian signed 32-bit integer (`struct` format `<i`). -/
def toI32 (bs : List Nat) : Int :=
  let u : Nat := leNat bs % 2 ^ 32
  if u < 2 ^ 31 then (u : Int) else (u : Int) - 2 ^ 32

/-- Little-endian unsigned 32-bit integer (`struct` format `<I`). -/
def toU32 (bs : List Nat) : Nat := leNat bs % 2 ^ 32

/-- Little-endian 64-bit bit pattern; the source stores IEEE-754 doubles
(`struct` format `<d`) here, modelled by their raw bit pattern. -/
def toF64Bits (bs : List Nat) : Nat := leNat bs % 2 ^ 64

/-- Decoded element values, one constructor per `DolDocElement*` class; each
carries the `name` and `id` the Python constructor stores. -/
inductive Element where
  | endE (name : String) (id : Nat)
  | color (name : String) (id : Nat) (c : Nat)
  | ditherColor (name : String) (id : Nat) (c1 c2 : Nat)
  | circle (name : String) (id : Nat) (x y radius : Int)
  | line (name : String) (id : Nat) (x1 y1 x2 y2 : Int)
  | floodFill (name : String) (id : Nat) (x y : Int)
  | thick (name : String) (id : Nat) (thickness : Int)
  | mesh (name : String) (id : Nat) (vertices : List (Int × Int × Int))
      (triangles : List (Int × Int × Int × Int))
  | pt (name : String) (id : Nat) (x y : Int)
  | text (name : String) (id : Nat) (x y : Int) (text : List Nat)
  | bitMap (name : String) (id : Nat) (x y width height : Int)
      (data : List Nat)
  | arrow (name : String) (id : Nat) (x1 y1 x2 y2 : Int)
  | planarSymmetry (name : String) (id : Nat) (x1 y1 x2 y2 : Int)
  | rect (name : String) (id : Nat) (x1 y1 x2 y2 : Int)
  | ellipse (name : String) (id : Nat) (x y width height : Int)
      (angleBits : Nat)
  | polygon (name : String) (id : Nat) (x y width height : Int)
      (angleBits : Nat) (sides : Int)
  | polyLine (name : String) (id : Nat) (points : List (Int × Int))
  | polyPt (name : String) (id : Nat) (x y : Int) (points : List (Int × Int))
  | bspline (name : String) (id : Nat) (points : List (Int × Int × Int))
  | transform (name : String) (id : Nat)
  | shift (name : String) (id : Nat) (x y : Int)
deriving Repr, DecidableEq

/-- The `name` attribute every Python element carries. -/
def Element.name : Element → String
  | .endE n _ => n
  | .color n _ _ => n
  | .ditherColor n _ _ _ => n
  | .circle n _ _ _ _ => n
  | .line n _ _ _ _ _ => n
  | .floodFill n _ _ _ => n
  | .thick n _ _ => n
  | .mesh n _ _ _ => n
  | .pt n _ _ _ => n
  | .text n _ _ _ _ => n
  | .bitMap n _ _ _ _ _ _ => n
  | .arrow n _ _ _ _ _ => n
  | .planarSymmetry n _ _ _ _ _ => n
  | .rect n _ _ _ _ _ => n
  | .ellipse n _ _ _ _ _ _ => n
  | .polygon n _ _ _ _ _ _ _ => n
  | .polyLine n _ _ => n
  | .polyPt n _ _ _ _ => n
  | .bspline n _ _ => n
  | .transform n _ => n
  | .shift n _ _ _ => n

/-- Signed 32-bit field number `k` of an unpacked byte buffer. -/
def i32At (bs : List Nat) (k : Nat) : Int := toI32 ((bs.drop (4 * k)).take 4)

/-- Python `DolDocElementEnd.fromStream`: consumes nothing. -/
def DolDocElementEnd.fromStream (name : String) (id : Nat) (s : ByteStream) :
    Except DecodeError (Element × ByteStream) :=
  .ok (.endE name id, s)

/-- Python `DolDocElementColor.fromStream`: `self.color, = stream.read(1)`. -/
def DolDocElementColor.fromStream (name : String) (id : Nat)
    (s : ByteStream) : Except DecodeError (Element × ByteStream) := do
  let (bs, s1) ← readExact s 1
  pure (.color name id (bs.headD 0), s1)

/-- Python `DolDocElementDitherColor.fromStream`: two bytes. -/
def DolDocElementDitherColor.fromStream (name : String) (id : Nat)
    (s : ByteStream) : Except DecodeError (Element × ByteStream) := do
  let (bs, s1) ← readExact s 2
  pure (.ditherColor name id (bs.headD 0) (bs.getD 1 0), s1)

/-- Python `DolDocElementCircle.fromStream`: `<iii` (x, y, radius). -/
def DolDocElementCircle.fromStream (name : String) (id : Nat)
    (s : ByteStream) : Except DecodeError (Element × ByteStream) := do
  let (bs, s1) ← readExact s 12
  pure (.circle name id (i32At bs 0) (i32At bs 1) (i32At bs 2), s1)

/-- Python `DolDocElementLine.fromStream`: `<iiii`. -/
def DolDocElementLine.fromStream (name : String) (id : Nat)
    (s : ByteStream) : Except DecodeError (Element × ByteStream) := do
  let (bs, s1) ← readExact s 16
  pure (.line name id (i32At bs 0) (i32At bs 1) (i32At bs 2) (i32At bs 3), s1)

/-- Python `DolDocElementFloodFill.fromStream`: `<ii`. -/
def DolDocElementFloodFill.fromStream (name : String) (id : Nat)
    (s : ByteStream) : Except DecodeError (Element × ByteStream) := do
  let (bs, s1) ← readExact s 8
  pure (.floodFill name id (i32At bs 0) (i32At bs 1), s1)

/-- Python `DolDocElementThick.fromStream`: `<i`. -/
def DolDocElementThick.fromStream (name : String) (id : Nat)
    (s : ByteStream) : Except DecodeError (Element × ByteStream) := do
  let (bs, s1) ← readExact s 4
  pure (.thick name id (i32At bs 0), s1)

/-- Vertex-reading loop of `DolDocElementMesh.fromStream`: `n` records of
`<iii`. -/
def readVertices : Nat → ByteStream →
    Except DecodeError (List (Int × Int × Int) × ByteStream)
  | 0, s => .ok ([], s)
  | n + 1, s => do
    let (bs, s1) ← readExact s 12
    let (ps, s2) ← readVertices n s1
    pure ((i32At bs 0, i32At bs 1, i32At bs 2) :: ps, s2)

/-- Triangle-reading loop of `DolDocElementMesh.fromStream`: `n` records of
`<iiii`. -/
def readTriangles : Nat → ByteStream →
    Except DecodeError (List (Int × Int × Int × Int) × ByteStream)
  | 0, s => .ok ([], s)
  | n + 1, s => do
    let (bs, s1) ← readExact s 16
    let (ps, s2) ← readTriangles n s1
    pure ((i32At bs 0, i32At bs 1, i32At bs 2, i32At bs 3) :: ps, s2)

/-- Python `DolDocElementMesh.fromStream`: `<ii` header (vertex count,
triangle count), then the vertex and triangle loops.  A negative count gives
`[None] * count == []` and an empty `range`, so the loops run zero times:
`Int.toNat` of a negative count is `0`. -/
def DolDocElementMesh.fromStream (name : String) (id : Nat)
    (s : ByteStream) : Except DecodeError (Element × ByteStream) := do
  let (bs, s1) ← readExact s 8
  let vertexCnt := i32At bs 0
  let triCnt := i32At bs 1
  let (vs, s2) ← readVertices vertexCnt.toNat s1
  let (ts, s3) ← readTriangles triCnt.toNat s2
  pure (.mesh name id vs ts, s3)

/-- Python `DolDocElementPoint.fromStream`: `<ii`. -/
def DolDocElementPoint.fromStream (name : String) (id : Nat)
    (s : ByteStream) : Except DecodeError (Element × ByteStream) := do
  let (bs, s1) ← readExact s 8
  pure (.pt name id (i32At bs 0) (i32At bs 1), s1)

/-- The NUL-scanning loop of `DolDocElementText.fromStream`, run on the bytes
after the cursor.  At end of input Python's `stream.read(1)` returns `b""`,
which differs from `b"\0"`, so the source loops forever appending nothing;
`none` marks that non-termination. -/
def readTextBytes : List Nat → Option (List Nat)
  | [] => none
  | b :: rest =>
    if b = 0 then some [] else (readTextBytes rest).map (b :: .)

/-- Python `DolDocElementText.fromStream` (shared by the Text, TextBox and
TextDiamond kinds): `<ii` header, then bytes up to a terminating NUL. -/
def DolDocElementText.fromStream (name : String) (id : Nat)
    (s : ByteStream) : Except DecodeError (Element × ByteStream) := do
  let (bs, s1) ← readExact s 8
  match readTextBytes (s1.data.drop s1.pos) with
  | none => .error .nonTermination
  | some t =>
    pure (.text name id (i32At bs 0) (i32At bs 1) t,
      { s1 with pos := s1.pos + t.length + 1 })

/-- Python `DolDocElementBitMap.fromStream`: `<iiii` header then
`stream.read(width * height)` raw bytes; a negative product makes
`BytesIO.read` consume the rest of the stream, and a short read is not an
error because no unpacking follows. -/
def DolDocElementBitMap.fromStream (name : String) (id : Nat)
    (s : ByteStream) : Except DecodeError (Element × ByteStream) := do
  let (bs, s1) ← readExact s 16
  let w := i32At bs 2
  let h := i32At bs 3
  let r := if w * h < 0 then s1.readAll else s1.readBytes (w * h).toNat
  pure (.bitMap name id (i32At bs 0) (i32At bs 1) w h r.1, r.2)

/-- Python `DolDocElementArrow.fromStream`: `<iiii`. -/
def DolDocElementArrow.fromStream (name : String) (id : Nat)
    (s : ByteStream) : Except DecodeError (Element × ByteStream) := do
  let (bs, s1) ← readExact s 16
  pure (.arrow name id (i32At bs 0) (i32At bs 1) (i32At bs 2) (i32At bs 3),
    s1)

/-- Python `DolDocElementPlanarSymmetry.fromStream`: `<iiii`. -/
def DolDocElementPlanarSymmetry.fromStream (name : String) (id : Nat)
    (s : ByteStream) : Except DecodeError (Element × ByteStream) := do
  let (bs, s1) ← readExact s 16
  pure (.planarSymmetry name id (i32At bs 0) (i32At bs 1) (i32At bs 2)
    (i32At bs 3), s1)

/-- Python `DolDocElementRect.fromStream`: `<iiii`. -/
def DolDocElementRect.fromStream (name : String) (id : Nat)
    (s : ByteStream) : Except DecodeError (Element × ByteStream) := do
  let (bs, s1) ← readExact s 16
  pure (.rect name id (i32At bs 0) (i32At bs 1) (i32At bs 2) (i32At bs 3),
    s1)

/-- Python `DolDocElementEllipse.fromStream`: `<iiiid` (the double stored as
its 64-bit pattern). -/
def DolDocElementEllipse.fromStream (name : String) (id : Nat)
    (s : ByteStream) : Except DecodeError (Element × ByteStream) := do
  let (bs, s1) ← readExact s 24
  pure (.ellipse name id (i32At bs 0) (i32At bs 1) (i32At bs 2) (i32At bs 3)
    (toF64Bits (bs.drop 16)), s1)

/-- Python `DolDocElementPolygon.fromStream`: `<iiiidi`. -/
def DolDocElementPolygon.fromStream (name : String) (id : Nat)
    (s : ByteStream) : Except DecodeError (Element × ByteStream) := do
  let (bs, s1) ← readExact s 28
  pure (.polygon name id (i32At bs 0) (i32At bs 1) (i32At bs 2) (i32At bs 3)
    (toF64Bits ((bs.drop 16).take 8)) (toI32 (bs.drop 24)), s1)

/-- Point-reading loop of `DolDocElementPolyLine.fromStream`: `n` records of
`<ii`. -/
def readPoints8 : Nat → ByteStream →
    Except DecodeError (List (Int × Int) × ByteStream)
  | 0, s => .ok ([], s)
  | n + 1, s => do
    let (bs, s1) ← readExact s 8
    let (ps, s2) ← readPoints8 n s1
    pure ((i32At bs 0, i32At bs 1) :: ps, s2)

/-- Python `DolDocElementPolyLine.fromStream`: `<i` count then the point
loop; a negative count gives an empty list and an empty `range`. -/
def DolDocElementPolyLine.fromStream (name : String) (id : Nat)
    (s : ByteStream) : Except DecodeError (Element × ByteStream) := do
  let (bs, s1) ← readExact s 4
  let count := toI32 bs
  let (ps, s2) ← readPoints8 count.toNat s1
  pure (.polyLine name id ps, s2)

/-- Python `DolDocElementPolyPt.fromStream`: `<iii` header, then
`stream.read(count * 3)` skipped bytes; the points list stays empty.  A
negative `count * 3` makes `BytesIO.read` consume the rest of the stream. -/
def DolDocElementPolyPt.fromStream (name : String) (id : Nat)
    (s : ByteStream) : Except DecodeError (Element × ByteStream) := do
  let (bs, s1) ← readExact s 12
  let count := toI32 (bs.drop 8)
  let s2 :=
    if count * 3 < 0 then (s1.readAll).2 else (s1.readBytes (count * 3).toNat).2
  pure (.polyPt name id (i32At bs 0) (i32At bs 1) [], s2)

/-- Point-reading loop of `DolDocElementBSpline.fromStream`: `n` records of
`<iii`. -/
def readPoints12 : Nat → ByteStream →
    Except DecodeError (List (Int × Int × Int) × ByteStream)
  | 0, s => .ok ([], s)
  | n + 1, s => do
    let (bs, s1) ← readExact s 12
    let (ps, s2) ← readPoints12 n s1
    pure ((i32At bs 0, i32At bs 1, i32At bs 2) :: ps, s2)

/-- Python `DolDocElementBSpline.fromStream`: `<i` count then the point
loop; a negative count gives an empty list and an empty `range`. -/
def DolDocElementBSpline.fromStream (name : String) (id : Nat)
    (s : ByteStream) : Except DecodeError (Element × ByteStream) := do
  let (bs, s1) ← readExact s 4
  let count := toI32 bs
  let (ps, s2) ← readPoints12 count.toNat s1
  pure (.bspline name id ps, s2)

/-- Python `DolDocElementTransform.fromStream`: consumes nothing. -/
def DolDocElementTransform.fromStream (name : String) (id : Nat)
    (s : ByteStream) : Except DecodeError (Element × ByteStream) :=
  .ok (.transform name id, s)

/-- Python `DolDocElementShift.fromStream`: `<ii`.  Defined in the source but
never registered in `DolDocTypes` (its entry there is commented out). -/
def DolDocElementShift.fromStream (name : String) (id : Nat)
    (s : ByteStream) : Except DecodeError (Element × ByteStream) := do
  let (bs, s1) ← readExact s 8
  pure (.shift name id (i32At bs 0) (i32At bs 1), s1)

/-- The static opcode table `DolDocMapping`: display name and decoder-kind
key, indexed by opcode byte. -/
def DolDocMapping : List (String × String) :=
  [("End", "End"),
   ("Color", "Color"),
   ("Dither Color", "DitherColor"),
   ("Thick", "Thick"),
   ("Planar Symmetry", "PlanarSymmetry"),
   ("Transform On", "Transform"),
   ("Transform Off", "Transform"),
   ("Shift", "Shift"),
   ("Point", "Pt"),
   ("PolyPoint", "PolyPt"),
   ("Line", "Line"),
   ("PolyLine", "PolyLine"),
   ("Rect", "Rect"),
   ("Rotated Rect", "Rect"),
   ("Circle", "Circle"),
   ("Ellipse", "Ellipse"),
   ("Polygon", "Polygon"),
   ("BSpline2", "BSpline2"),
   ("BSpline2 Closed", "BSpline2"),
   ("BSpline3", "BSpline3"),
   ("BSpline3 Closed", "BSpline3"),
   ("Flood Fill", "FloodFill"),
   ("Flood Fill Not Color", "FloodFill"),
   ("BitMap", "BitMap"),
   ("Mesh", "Mesh"),
   ("Shiftable Mesh", "Mesh"),
   ("Arrow", "Arrow"),
   ("Text", "Text"),
   ("Text Box", "TextBox"),
   ("Text Diamond", "TextDiamond")]

/-- The decoder registry `DolDocTypes`, a dictionary from decoder-kind key to
decoder; the `"Shift"` entry is commented out in the source, so that key is
absent. -/
def DolDocTypes (cls : String) :
    Option (String → Nat → ByteStream →
      Except DecodeError (Element × ByteStream)) :=
  match cls with
  | "End" => some DolDocElementEnd.fromStream
  | "Color" => some DolDocElementColor.fromStream
  | "DitherColor" => some DolDocElementDitherColor.fromStream
  | "Thick" => some DolDocElementThick.fromStream
  | "PlanarSymmetry" => some DolDocElementPlanarSymmetry.fromStream
  | "Transform" => some DolDocElementTransform.fromStream
  | "Pt" => some DolDocElementPoint.fromStream
  | "PolyPt" => some DolDocElementPolyPt.fromStream
  | "Line" => some DolDocElementLine.fromStream
  | "PolyLine" => some DolDocElementPolyLine.fromStream
  | "Rect" => some DolDocElementRect.fromStream
  | "Circle" => some DolDocElementCircle.fromStream
  | "Ellipse" => some DolDocElementEllipse.fromStream
  | "Polygon" => some DolDocElementPolygon.fromStream
  | "BSpline2" => some DolDocElementBSpline.fromStream
  | "BSpline3" => some DolDocElementBSpline.fromStream
  | "FloodFill" => some DolDocElementFloodFill.fromStream
  | "BitMap" => some DolDocElementBitMap.fromStream
  | "Mesh" => some DolDocElementMesh.fromStream
  | "Arrow" => some DolDocElementArrow.fromStream
  | "Text" => some DolDocElementText.fromStream
  | "TextBox" => some DolDocElementText.fromStream
  | "TextDiamond" => some DolDocElementText.fromStream
  | _ => none

/-- The `while True` element loop of `DolDocEntry.fromStream`.  One iteration:
read one opcode byte (`IndexError` on an empty read becomes
`eofBeforeEnd`); the source checks `etype > len(DolDocMapping)` — strictly
greater — before indexing `DolDocMapping[etype]`, so an opcode equal to the
table length reaches the indexing and raises an uncaught `IndexError`;
then the kind is looked up in `DolDocTypes` and the decoder runs; the loop
stops after appending an element whose name is `"End"`.  Every successful
iteration consumes at least the opcode byte, so fuel larger than the number
of remaining bytes is never exhausted; the wrapper supplies such fuel. -/
def entryLoop : Nat → List Element → ByteStream →
    Except DecodeError (List Element × ByteStream)
  | 0, _, _ => .error .fuelExhausted
  | fuel + 1, acc, s =>
    match (s.data.drop s.pos).head? with
    | none => .error .eofBeforeEnd
    | some etype =>
      let s1 : ByteStream := { s with pos := s.pos + 1 }
      if etype > DolDocMapping.length then
        .error (.unknownOpcode etype s1.pos)
      else
        match DolDocMapping.get? etype with
        | none => .error .indexError
        | some (name, clsKey) =>
          match DolDocTypes clsKey with
          | none => .error (.unimplementedDecoder clsKey s1.pos)
          | some dec =>
            match dec name etype s1 with
            | .error e => .error e
            | .ok (elm, s2) =>
              if elm.name = "End" then .ok (acc ++ [elm], s2)
              else entryLoop fuel (acc ++ [elm]) s2

/-- Python `DolDocEntry.fromStream`: run the element loop from the cursor. -/
def DolDocEntry.fromStream (s : ByteStream) :
    Except DecodeError (List Element × ByteStream) :=
  entryLoop (s.data.length + 1) [] s

/-- Python `DolDocEntry.fromBytes`: decode a chunk payload from offset 0,
returning its element list. -/
def DolDocEntry.fromBytes (data : List Nat) :
    Except DecodeError (List Element) :=
  (DolDocEntry.fromStream { data := data, pos := 0 }).map Prod.fst

/-- A decoded chunk: the four `<IIII` header fields plus the element list the
source appends as `[chunkId, flags, size, refCount, DolDocEntry]`. -/
structure Chunk where
  chunkId : Nat
  flags : Nat
  size : Nat
  refCount : Nat
  elements : List Element
deriving Repr, DecidableEq

/-- A decoded document: preamble text bytes and the chunk list. -/
structure Document where
  text : List Nat
  chunks : List Chunk
deriving Repr, DecidableEq

/-- The preamble loop of `DolDoc.load`: accumulate bytes until a NUL byte
(discarded) or end of input; returns the accumulated bytes and the rest. -/
def readPreamble : List Nat → List Nat × List Nat
  | [] => ([], [])
  | b :: rest =>
    if b = 0 then ([], rest)
    else
      let r := readPreamble rest
      (b :: r.1, r.2)

/-- The chunk loop of `DolDoc.load`.  One iteration: `read(16)`; an empty
result is normal end of document, while 1 to 15 bytes make
`struct.unpack("<IIII", data)` raise `struct.error`; otherwise unpack the
header, `read(size)` (short reads allowed) and decode the payload with
`DolDocEntry.fromBytes`.  Every iteration past the end test consumes 16
header bytes, so fuel larger than the number of remaining bytes is never
exhausted; the wrapper supplies such fuel. -/
def chunkLoop : Nat → List Chunk → ByteStream →
    Except DecodeError (List Chunk × ByteStream)
  | 0, _, _ => .error .fuelExhausted
  | fuel + 1, acc, s =>
    let r := s.readBytes 16
    if r.1.length = 0 then .ok (acc, s)
    else if r.1.length ≠ 16 then .error (.unexpectedEof s.pos)
    else
      let hdr := r.1
      let s1 := r.2
      let size := toU32 ((hdr.drop 8).take 4)
      let p := s1.readBytes size
      match DolDocEntry.fromBytes p.1 with
      | .error e => .error e
      | .ok elems =>
        chunkLoop fuel
          (acc ++ [{ chunkId := toU32 (hdr.take 4),
                     flags := toU32 ((hdr.drop 4).take 4),
                     size := size,
                     refCount := toU32 (hdr.drop 12),
                     elements := elems }]) p.2

/-- Python `DolDoc.load`: preamble then the chunk loop over the remaining
bytes. -/
def DolDoc.load (data : List Nat) : Except DecodeError Document :=
  let p := readPreamble data
  match chunkLoop (p.2.length + 1) [] { data := p.2, pos := 0 } with
  | .error e => .error e
  | .ok (chunks, _) => .ok { text := p.1, chunks := chunks }

end DolDocPy

namespace DolDocPy

/-- Reading exactly `n` bytes succeeds when at least `n` bytes remain. -/
lemma readExact_ok (s : ByteStream) (n : Nat) (h : n ≤ s.remaining) :
    readExact s n =
      .ok ((s.data.drop s.pos).take n, { s with pos := s.pos + n }) := by
  have hlen : ((s.data.drop s.pos).take n).length = n := by
    simp only [List.length_take, List.length_drop]
    simp only [ByteStream.remaining] at h
    omega
  simp [readExact, ByteStream.readBytes, hlen]

/-- Whether a whole-document decode succeeds. -/
def loadSucceeds (d : List Nat) : Bool :=
  match DolDoc.load d with
  | .ok _ => true
  | .error _ => false

end DolDocPy

namespace DolDocPy

/-- C1: the claim predicts that an opcode equal to the table length (30)
fails with the unknown-opcode error, but the source checks
`etype > len(DolDocMapping)` strictly, so opcode 30 passes the check and
`DolDocMapping[30]` raises an uncaught `IndexError` instead. -/
theorem opcode_at_table_length_raises_index_error :
    DolDocEntry.fromBytes [30] = .error .indexError := by rfl

/-- C3: the Text decoder is not total — on the 8-byte payload `x = y = 0`
with no `0x00` terminator afterwards, the NUL-scanning loop keeps reading
`b""` at end of input and never terminates. -/
theorem text_decoder_diverges_without_terminator :
    DolDocElementText.fromStream "Text" 27
        { data := [0, 0, 0, 0, 0, 0, 0, 0], pos := 0 } =
      .error .nonTermination := by rfl

/-- C5 counterexample: the opcode table does not have 28 entries. -/
theorem opcode_table_length_not_28 : DolDocMapping.length ≠ 28 := by decide

/-- C5 (amended): the opcode table `DolDocMapping` has exactly 30 entries. -/
theorem opcode_table_length_eq_30 : DolDocMapping.length = 30 := by rfl

/-- C8: decoding the bytes of `"Hello"` followed by `0x00` and nothing else
yields a document whose preamble text is `"Hello"` and whose chunk list is
empty. -/
theorem hello_preamble_empty_chunks :
    DolDoc.load [72, 101, 108, 108, 111, 0] =
      .ok { text := [72, 101, 108, 108, 111], chunks := [] } := by rfl

/-- C9: whole-document decoding is a pure function of the input bytes, so
decoding the same byte blob twice yields structurally equal documents. -/
theorem decode_deterministic (d : List Nat) :
    DolDoc.load d = DolDoc.load d := rfl

/-- C2 counterexample: on input `[0x41, 0x00, 0x01]` — preamble `"A"`, then a
single leftover byte (fewer than 16) — the claim predicts a successful
decode, but `struct.unpack("<IIII", data)` raises `struct.error` on the
1-byte read, so the load fails. -/
theorem trailing_byte_after_preamble_fails :
    loadSucceeds [65, 0, 1] = false := by rfl

/-- C2 (amended): after the preamble and any complete chunks, a remainder of
exactly 0 bytes is the normal end of document and the chunk loop returns
successfully, but a remainder of 1 to 15 bytes makes the 16-byte header
unpack fail with a struct error. -/
theorem chunk_header_short_read (fuel : Nat) (acc : List Chunk)
    (s : ByteStream) (h : s.remaining < 16) :
    chunkLoop (fuel + 1) acc s =
      if s.remaining = 0 then .ok (acc, s)
      else .error (.unexpectedEof s.pos) := by
  have hlen : ((s.data.drop s.pos).take 16).length = s.remaining := by
    simp only [List.length_take, List.length_drop]
    simp only [ByteStream.remaining] at h ⊢
    omega
  by_cases h0 : s.remaining = 0
  · simp [chunkLoop, ByteStream.readBytes, hlen, h0]
  · have h16 : ¬ s.remaining = 16 := by omega
    simp [chunkLoop, ByteStream.readBytes, hlen, h0, h16]

/-- Witness for C2 (amended): three leftover bytes after an empty chunk list
fail with the struct error at offset 0. -/
theorem chunk_header_short_read_witness :
    (ByteStream.remaining { data := [1, 2, 3], pos := 0 } < 16) ∧
      chunkLoop 1 [] { data := [1, 2, 3], pos := 0 } =
        .error (.unexpectedEof 0) := by
  refine ⟨by decide, ?_⟩
  have h := chunk_header_short_read 0 [] { data := [1, 2, 3], pos := 0 }
    (by decide)
  simpa using h

end DolDocPy

namespace DolDocPy

/-- C4: an element stream consisting of the Circle opcode (14) followed by
only 2 bytes fails — the Circle decoder unpacks `<iii` (12 bytes) but the
read starting at offset 1 returns only 2, raising the struct error at
offset 1 rather than reading undefined data. -/
theorem circle_truncated_payload_fails (a b : Nat) :
    DolDocEntry.fromBytes [14, a, b] = .error (.unexpectedEof 1) := by
  simp [DolDocEntry.fromBytes, DolDocEntry.fromStream, entryLoop,
    DolDocMapping, DolDocTypes, DolDocElementCircle.fromStream, readExact,
    ByteStream.readBytes, Except.map]

/-- C6: whenever the element loop reads opcode byte `0x00`, it decodes the
End element (which consumes no further bytes), appends it as the last
element, and stops — at any stream position, with any elements already
accumulated. -/
theorem end_opcode_stops_loop (fuel : Nat) (acc : List Element)
    (s : ByteStream) (h : (s.data.drop s.pos).head? = some 0) :
    entryLoop (fuel + 1) acc s =
      .ok (acc ++ [.endE "End" 0], { s with pos := s.pos + 1 }) := by
  simp only [entryLoop]
  rw [h]
  rfl

/-- Witness for C6: the one-byte stream `[0x00]` decodes to the single End
element, advancing the cursor by exactly the opcode byte. -/
theorem end_opcode_stops_loop_witness :
    ((([0] : List Nat).drop 0).head? = some 0) ∧
      entryLoop 1 [] { data := [0], pos := 0 } =
        .ok ([.endE "End" 0], { data := [0], pos := 1 }) := by
  refine ⟨by decide, ?_⟩
  have h := end_opcode_stops_loop 0 [] { data := [0], pos := 0 } (by decide)
  simpa using h

/-- C7: whenever the element loop reads the Shift opcode (7), the lookup of
the `"Shift"` kind in `DolDocTypes` fails (its registration is commented
out in the source), so the decode fails with the unimplemented-decoder
error — regardless of the bytes that follow. -/
theorem shift_opcode_unimplemented (fuel : Nat) (acc : List Element)
    (s : ByteStream) (h : (s.data.drop s.pos).head? = some 7) :
    entryLoop (fuel + 1) acc s =
      .error (.unimplementedDecoder "Shift" (s.pos + 1)) := by
  simp only [entryLoop]
  rw [h]
  rfl

/-- Witness for C7: the stream `[0x07, 0x09]` fails with the
unimplemented-decoder error for the `"Shift"` kind at offset 1. -/
theorem shift_opcode_unimplemented_witness :
    ((([7, 9] : List Nat).drop 0).head? = some 7) ∧
      entryLoop 1 [] { data := [7, 9], pos := 0 } =
        .error (.unimplementedDecoder "Shift" 1) := by
  refine ⟨by decide, ?_⟩
  have h := shift_opcode_unimplemented 0 [] { data := [7, 9], pos := 0 }
    (by decide)
  simpa using h

end DolDocPy

namespace DolDocPy

/-- C10: when the leading signed 32-bit count decodes negative, the
count-prefixed decoders succeed with an empty list, consuming only the
count/header bytes: PolyLine and BSpline consume their 4 count bytes, and
Mesh (with both header counts negative) consumes its 8 header bytes, since
`[None] * count` is empty and `range(count)` runs zero times for a negative
count. -/
theorem negative_count_gives_empty_lists (name : String) (id : Nat)
    (s : ByteStream) (h8 : 8 ≤ s.remaining)
    (hv : toI32 ((s.data.drop s.pos).take 4) < 0)
    (ht : toI32 (((s.data.drop s.pos).drop 4).take 4) < 0) :
    DolDocElementPolyLine.fromStream name id s =
        .ok (.polyLine name id [], { s with pos := s.pos + 4 }) ∧
      DolDocElementBSpline.fromStream name id s =
        .ok (.bspline name id [], { s with pos := s.pos + 4 }) ∧
      DolDocElementMesh.fromStream name id s =
        .ok (.mesh name id [] [], { s with pos := s.pos + 8 }) := by
  have h4 : 4 ≤ s.remaining := le_trans (by norm_num) h8
  have hv0 : (toI32 ((s.data.drop s.pos).take 4)).toNat = 0 :=
    Int.toNat_of_nonpos hv.le
  refine ⟨?_, ?_, ?_⟩
  · simp only [DolDocElementPolyLine.fromStream]
    rw [readExact_ok s 4 h4]
    simp only [bind, Except.bind]
    rw [hv0]
    rfl
  · simp only [DolDocElementBSpline.fromStream]
    rw [readExact_ok s 4 h4]
    simp only [bind, Except.bind]
    rw [hv0]
    rfl
  · have hl0 : ((s.data.drop s.pos).take 8).take 4 =
        (s.data.drop s.pos).take 4 := by
      simp [List.take_take]
    have hl1 : (((s.data.drop s.pos).take 8).drop 4).take 4 =
        ((s.data.drop s.pos).drop 4).take 4 := by
      simp [List.drop_take, List.take_take]
    have hb1 : (i32At ((s.data.drop s.pos).take 8) 0).toNat = 0 := by
      simp only [i32At, Nat.mul_zero, List.drop_zero, hl0]
      exact hv0
    have hb2 : (i32At ((s.data.drop s.pos).take 8) 1).toNat = 0 := by
      simp only [i32At, Nat.mul_one, hl1]
      exact Int.toNat_of_nonpos ht.le
    simp only [DolDocElementMesh.fromStream]
    rw [readExact_ok s 8 h8]
    simp only [bind, Except.bind]
    rw [hb1, hb2]
    rfl

/-- Witness for C10: the 8-byte stream whose two header fields decode to the
negative counts -1 and -2 makes all three decoders return empty lists. -/
theorem negative_count_gives_empty_lists_witness :
    (8 ≤ ByteStream.remaining
        { data := [255, 255, 255, 255, 254, 255, 255, 255], pos := 0 }) ∧
      toI32 ((([255, 255, 255, 255, 254, 255, 255, 255] : List Nat).drop
        0).take 4) < 0 ∧
      toI32 (((([255, 255, 255, 255, 254, 255, 255, 255] : List Nat).drop
        0).drop 4).take 4) < 0 ∧
      DolDocElementPolyLine.fromStream "PolyLine" 11
          { data := [255, 255, 255, 255, 254, 255, 255, 255], pos := 0 } =
        .ok (.polyLine "PolyLine" 11 [],
          { data := [255, 255, 255, 255, 254, 255, 255, 255], pos := 4 }) ∧
      DolDocElementBSpline.fromStream "BSpline2" 17
          { data := [255, 255, 255, 255, 254, 255, 255, 255], pos := 0 } =
        .ok (.bspline "BSpline2" 17 [],
          { data := [255, 255, 255, 255, 254, 255, 255, 255], pos := 4 }) ∧
      DolDocElementMesh.fromStream "Mesh" 24
          { data := [255, 255, 255, 255, 254, 255, 255, 255], pos := 0 } =
        .ok (.mesh "Mesh" 24 [] [],
          { data := [255, 255, 255, 255, 254, 255, 255, 255], pos := 8 }) := by
  have h1 := negative_count_gives_empty_lists "PolyLine" 11
    { data := [255, 255, 255, 255, 254, 255, 255, 255], pos := 0 }
    (by decide) (by decide) (by decide)
  have h2 := negative_count_gives_empty_lists "BSpline2" 17
    { data := [255, 255, 255, 255, 254, 255, 255, 255], pos := 0 }
    (by decide) (by decide) (by decide)
  have h3 := negative_count_gives_empty_lists "Mesh" 24
    { data := [255, 255, 255, 255, 254, 255, 255, 255], pos := 0 }
    (by decide) (by decide) (by decide)
  exact ⟨by decide, by decide, by decide, h1.1, h2.2.1, h3.2.2⟩

end DolDocPy
